import Mathlib

/-!
Verification of the Vivint home-automation integration
(`custom_components/vivint`): a shallow embedding of the device
classification, device-class derivation, motion debounce timer, session
manager and camera stream/image logic, with theorems settling the spec's
claims about them.
-/

namespace Vivint

/-! ## External enums

`EquipmentType` and `SensorType` live in the external `vivintpy` package.
The integration's code only compares them for equality, so they are
modelled as inductive types carrying the constructors the code names plus
representative other members (the real enums have more values; the code
treats every unnamed value uniformly). -/

/-- Equipment type of a wireless sensor (external `vivintpy.enums.EquipmentType`). -/
inductive EquipmentType
  | CONTACT
  | EMERGENCY
  | FREEZE
  | MOTION
  | TEMPERATURE
  | WATER
  | UNKNOWN
  deriving DecidableEq, Repr

/-- Sensor type of a wireless sensor (external `vivintpy.enums.SensorType`).
`EXIT_ENTRY_2` and `SILENT_BURGLARY` stand in for the enum members the
code never names. -/
inductive SensorType
  | EXIT_ENTRY_1
  | EXIT_ENTRY_2
  | PERIMETER
  | FIRE
  | FIRE_WITH_VERIFICATION
  | CARBON_MONOXIDE
  | SILENT_BURGLARY
  deriving DecidableEq, Repr

/-- Device classes of the host's binary-sensor platform
(`homeassistant.components.binary_sensor.BinarySensorDeviceClass`),
restricted to the members this integration uses. -/
inductive BinarySensorDeviceClass
  | MOTION
  | COLD
  | MOISTURE
  | HEAT
  | GARAGE_DOOR
  | DOOR
  | SAFETY
  | WINDOW
  | SMOKE
  | GAS
  | CONNECTIVITY
  deriving DecidableEq, Repr

/-! ## Substring test

Python's `"TILT" in name` membership test on strings, embedded as an
executable substring check on the character lists. -/

/-- `matchesAt pat s` holds when `pat` is an initial segment of `s`. -/
def matchesAt : List Char → List Char → Bool
  | [], _ => true
  | _ :: _, [] => false
  | a :: as, b :: bs => a == b && matchesAt as bs

/-- `occursIn pat s` holds when `pat` occurs contiguously anywhere in `s`. -/
def occursIn (pat : List Char) : List Char → Bool
  | [] => matchesAt pat []
  | b :: bs => matchesAt pat (b :: bs) || occursIn pat bs

/-- Python's `pat in s` substring membership on strings. -/
def strHasSub (s pat : String) : Bool :=
  occursIn pat.data s.data

/-! ## Device model

A vendor device, abstracted to the fields the integration reads.
`isWirelessSensor` / `isCamera` model the `isinstance` tests of
`binary_sensor.async_setup_entry`; `hasNodeOnline` / `hasIsOnline` model
its `hasattr` tests. -/

structure Device where
  isWirelessSensor : Bool
  isCamera : Bool
  hasNodeOnline : Bool
  hasIsOnline : Bool
  equipment_type : EquipmentType
  sensor_type : SensorType
  /-- `device.equipment_code.name` -/
  equipment_code_name : String
  deriving DecidableEq, Repr

/-- Key chosen for a `VivintOnlineBinarySensorEntity` (`key="node_online"` or
`key="is_online"` in `async_setup_entry`). -/
inductive OnlineKey
  | node_online
  | is_online
  deriving DecidableEq, Repr

/-- The kind of entity adapter `binary_sensor.async_setup_entry` instantiates
for a device. -/
inductive EntityKind
  | binarySensor
  | cameraMotion
  | online (key : OnlineKey)
  deriving DecidableEq, Repr

/-- Per-device classification performed by the `for device in
alarm_panel.devices` body of `binary_sensor.async_setup_entry`
(src/custom_components/vivint/binary_sensor.py lines 47-68): an
`if/elif` chain appending at most one entity. -/
def classifyDevice (d : Device) : Option EntityKind :=
  if d.isWirelessSensor then some .binarySensor
  else if d.isCamera then some .cameraMotion
  else if d.hasNodeOnline then some (.online .node_online)
  else if d.hasIsOnline then some (.online .is_online)
  else none

/-- Modelled from the spec: the classification contract as §4.2 words it,
"first match wins": (1) wireless sensor, (2) camera, (3) node-online flag,
(4) is-online flag, (5) no entity. Written from the spec's text, to be
compared with `classifyDevice` (written from the source). -/
def classifySpec (d : Device) : Option EntityKind :=
  if d.isWirelessSensor then some .binarySensor
  else if d.isCamera then some .cameraMotion
  else if d.hasNodeOnline then some (.online .node_online)
  else if d.hasIsOnline then some (.online .is_online)
  else none

/-- An alarm panel with its device list. -/
structure AlarmPanel where
  devices : List Device
  deriving Repr

/-- A system with its alarm panels. -/
structure VSystem where
  alarm_panels : List AlarmPanel
  deriving Repr

/-- The account: root of the systems → panels → devices traversal. -/
structure Account where
  systems : List VSystem
  deriving Repr

/-- The entity list built by the nested `for` loops of
`binary_sensor.async_setup_entry` (lines 44-68). -/
def setupEntities (account : Account) : List EntityKind :=
  account.systems.flatMap fun s =>
    s.alarm_panels.flatMap fun p =>
      p.devices.filterMap classifyDevice

namespace VivintBinarySensorEntity

/-- `VivintBinarySensorEntity.device_class`
(src/custom_components/vivint/binary_sensor.py lines 106-147).
Python's implicit `return None` on the `CONTACT` branch with an unmatched
sensor type is the `none` here; the final `else` of the outer chain is the
`some SAFETY` fallback. -/
def device_class (d : Device) : Option BinarySensorDeviceClass :=
  let equipment_type := d.equipment_type
  if equipment_type = .MOTION then some .MOTION
  else if equipment_type = .FREEZE then some .COLD
  else if equipment_type = .WATER then some .MOISTURE
  else if equipment_type = .TEMPERATURE then some .HEAT
  else if equipment_type = .CONTACT then
    let sensor_type := d.sensor_type
    if sensor_type = .EXIT_ENTRY_1 then
      some (if strHasSub d.equipment_code_name "TILT"
        then .GARAGE_DOOR else .DOOR)
    else if sensor_type = .PERIMETER then
      some (if strHasSub d.equipment_code_name "GLASS_BREAK"
        then .SAFETY else .WINDOW)
    else if sensor_type = .FIRE ∨ sensor_type = .FIRE_WITH_VERIFICATION then
      some .SMOKE
    else if sensor_type = .CARBON_MONOXIDE then some .GAS
    else none
  else some .SAFETY

end VivintBinarySensorEntity

/-! ## Motion debounce timer

`VivintCameraBinarySensorEntity` (binary_sensor.py lines 150-216) keeps
`_last_motion_event : datetime | None` and a handle to a pending
`async_call_later` timer. Two facets are embedded: a time-based model (when
does the scheduled `async_motion_stopped_callback` fire, what does `is_on`
read) for C1, and a handle-identity model (how many timers are pending) for
C2. Time is `ℚ`, in seconds. -/

/-- `MOTION_STOPPED_SECONDS` (binary_sensor.py line 28). -/
def MOTION_STOPPED_SECONDS : ℚ := 30

namespace VivintCameraBinarySensorEntity

/-- The entity's motion state: `_last_motion_event`, and the absolute time
at which the pending `async_call_later` timer fires (`none` when no timer
is pending). -/
structure CamMotionState where
  last_motion_event : Option ℚ
  motion_stopped_expiry : Option ℚ
  deriving DecidableEq, Repr

/-- `__init__` (lines 153-163): no recorded motion, no pending timer. -/
def initState : CamMotionState := ⟨none, none⟩

/-- `is_on` (lines 175-181): `self._last_motion_event is not None and
self._last_motion_event >= utcnow() - timedelta(seconds=30)`. -/
def is_on (s : CamMotionState) (now : ℚ) : Bool :=
  match s.last_motion_event with
  | none => false
  | some m => decide (now - 30 ≤ m)

/-- `_motion_callback` (lines 193-203) at time `now`: cancel any pending
timer, record `utcnow()`, and schedule `async_motion_stopped_callback` to
run `MOTION_STOPPED_SECONDS` later (the overwritten expiry is the
cancel-and-reschedule). -/
def motion_callback (now : ℚ) (_s : CamMotionState) : CamMotionState :=
  { last_motion_event := some now,
    motion_stopped_expiry := some (now + MOTION_STOPPED_SECONDS) }

/-- Delayed-callback semantics: observing the state at time `now`, a pending
timer whose expiry has been reached has fired, running
`async_motion_stopped_callback` (lines 205-209), which clears both the
handle and `_last_motion_event`. -/
def fireIfDue (now : ℚ) (s : CamMotionState) : CamMotionState :=
  match s.motion_stopped_expiry with
  | none => s
  | some e => if e ≤ now then ⟨none, none⟩ else s

/-- The run of C1: a motion event at t = 0 and no further events; the value
`is_on` reads at time `t`. -/
def singleMotionIsOn (t : ℚ) : Bool :=
  is_on (fireIfDue t (motion_callback 0 initState)) t

end VivintCameraBinarySensorEntity

namespace MotionTimer

/-- State for the pending-timer invariant: the entity's two fields, with
the handle as a timer identity, plus `pending`, the identities of every
scheduled, not-yet-cancelled, not-yet-fired `async_call_later` timer, and
`nextId`, the supply of fresh identities. -/
structure TimerSysState where
  last_motion_event : Option ℚ
  motion_stopped_callback : Option Nat
  pending : List Nat
  nextId : Nat
  deriving DecidableEq, Repr

/-- Initial state: no recorded motion, no handle, no pending timer. -/
def timerInit : TimerSysState := ⟨none, none, [], 0⟩

/-- `async_cancel_motion_stopped_callback` (lines 211-216): when a handle is
held, invoke it — deregistering that timer, which will then never fire —
and clear the handle; a no-op otherwise. -/
def cancel_motion_stopped (s : TimerSysState) : TimerSysState :=
  match s.motion_stopped_callback with
  | none => s
  | some h =>
      { s with pending := s.pending.erase h, motion_stopped_callback := none }

/-- `_motion_callback` (lines 193-203): first cancel any pending timer, then
record the motion time and schedule exactly one fresh 30-second timer,
holding its handle. -/
def motion_handler (now : ℚ) (s : TimerSysState) : TimerSysState :=
  let s1 := cancel_motion_stopped s
  { s1 with
      last_motion_event := some now,
      motion_stopped_callback := some s1.nextId,
      pending := s1.pending ++ [s1.nextId],
      nextId := s1.nextId + 1 }

/-- A pending timer `h` fires: it leaves the pending set and its body
`async_motion_stopped_callback` (lines 205-209) clears the handle and the
recorded motion time. A timer that is not pending (already cancelled or
fired) never runs. -/
def fire_motion_stopped (h : Nat) (s : TimerSysState) : TimerSysState :=
  if h ∈ s.pending then
    { s with
        pending := s.pending.erase h,
        motion_stopped_callback := none,
        last_motion_event := none }
  else s

/-- The events delivered to a camera motion adapter: a motion-detected push
event, a scheduled timer firing, and entity teardown
(`async_will_remove_from_hass`, lines 188-191, which cancels). -/
inductive MotionEvent
  | motion (now : ℚ)
  | fire (h : Nat)
  | teardown

/-- One step of the adapter. -/
def step (s : TimerSysState) : MotionEvent → TimerSysState
  | .motion now => motion_handler now s
  | .fire h => fire_motion_stopped h s
  | .teardown => cancel_motion_stopped s

/-- The state after delivering a sequence of events from the initial state. -/
def run (evs : List MotionEvent) : TimerSysState :=
  evs.foldl step timerInit

/-- The timer invariant: the pending set is empty with no handle held, or is
exactly the one timer the handle names (whose identity is in the range of
ids issued so far). -/
def Inv (s : TimerSysState) : Prop :=
  (s.motion_stopped_callback = none ∧ s.pending = [])
  ∨ ∃ h, s.motion_stopped_callback = some h ∧ s.pending = [h] ∧ h < s.nextId

end MotionTimer

/-! ## Session manager (`hub.py`) -/

namespace VivintHub

/-- Outcome of the external `account.connect(...)` call: success, or one of
the exceptions `login` handles (hub.py lines 97-110). -/
inductive ConnectOutcome
  | success
  | mfaRequired
  | authFailure
  | apiFailure
  | responseFailure
  | connectFailure
  deriving DecidableEq, Repr

/-- The errors `login` surfaces, named as the spec's taxonomy names them:
the three network/API exception types (`VivintSkyApiError`,
`ClientResponseError`, `ClientConnectorError`) are the spec's
`ConnectivityError`. -/
inductive LoginFailure
  | mfaRequired
  | authentication
  | connectivity
  deriving DecidableEq, Repr

/-- The hub fields `login` and `save_session` touch: `self.logged_in`,
whether a `ClientSession` is open, and whether the cookie jar has been
persisted to disk. -/
structure HubState where
  logged_in : Bool
  session_open : Bool
  cookie_saved : Bool
  deriving DecidableEq, Repr

/-- `save_session` (hub.py lines 136-143): save the cookie jar to the cache
file, set `self.logged_in = True`, and return it. -/
def save_session (s : HubState) : HubState × Bool :=
  ({ s with cookie_saved := true, logged_in := true }, true)

/-- `login` (hub.py lines 76-110): reset `logged_in`, restore the cookie
jar best-effort, open a session, then `account.connect(...)`; on success
return `save_session()`; re-raise `VivintSkyApiMfaRequiredError`,
`VivintSkyApiAuthenticationError`, and the three connectivity exceptions. -/
def login (outcome : ConnectOutcome) (s : HubState) :
    HubState × Except LoginFailure Bool :=
  let s0 : HubState := { s with logged_in := false, session_open := true }
  match outcome with
  | .success =>
      let r := save_session s0
      (r.1, .ok r.2)
  | .mfaRequired => (s0, .error .mfaRequired)
  | .authFailure => (s0, .error .authentication)
  | .apiFailure => (s0, .error .connectivity)
  | .responseFailure => (s0, .error .connectivity)
  | .connectFailure => (s0, .error .connectivity)

/-- The errors the operations inside `disconnect` would raise if misused:
closing an already-closed connection or session, and `os.remove` on an
absent file (`FileNotFoundError`). -/
inductive HubOpFailure
  | alreadyClosed
  | notFound
  deriving DecidableEq, Repr

/-- The hub fields `disconnect` touches, with `listener_calls` counting the
teardown-callback invocations across all calls. -/
structure DiscState where
  account_connected : Bool
  session_closed : Bool
  cache_file_present : Bool
  undo_listener : Bool
  listener_calls : Nat
  deriving DecidableEq, Repr

/-- `account.disconnect()`: closes the live connection (misuse on a closed
connection modelled as an error). -/
def account_disconnect (s : DiscState) : Except HubOpFailure DiscState :=
  if s.account_connected then .ok { s with account_connected := false }
  else .error .alreadyClosed

/-- `session.close()`: closes the HTTP session (misuse on a closed session
modelled as an error). -/
def session_close (s : DiscState) : Except HubOpFailure DiscState :=
  if s.session_closed then .error .alreadyClosed
  else .ok { s with session_closed := true }

/-- `remove_cache_file` (hub.py lines 132-134): `os.remove(self.cache_file)`,
raising `NotFound` when the file is absent. -/
def remove_cache_file (s : DiscState) : Except HubOpFailure DiscState :=
  if s.cache_file_present then .ok { s with cache_file_present := false }
  else .error .notFound

/-- `disconnect` (hub.py lines 112-122): close the connection only `if
self.account.connected`, close the session only `if not
self.session.closed`, optionally remove the cache file, then invoke the
teardown listener if registered and clear the reference. -/
def disconnect (remove_cache : Bool) (s : DiscState) :
    Except HubOpFailure DiscState := do
  let s1 ← if s.account_connected then account_disconnect s else pure s
  let s2 ← if ¬ s1.session_closed then session_close s1 else pure s1
  let s3 ← if remove_cache then remove_cache_file s2 else pure s2
  pure (if s3.undo_listener then
      { s3 with undo_listener := false,
                listener_calls := s3.listener_calls + 1 }
    else s3)

/-- `n` successive calls of `disconnect(remove_cache=False)`. -/
def disconnectIter : Nat → DiscState → Except HubOpFailure DiscState
  | 0, s => .ok s
  | n + 1, s => do disconnectIter n (← disconnect false s)

end VivintHub

/-! ## Camera (`camera.py`) -/

namespace VivintCam

/-- Modelled from the spec: `const.py` is not under `src/`; the
`rtsp_stream` option takes the three values `direct`, `internal`,
`external` (spec §6), of which `camera.py` names `RTSP_STREAM_DIRECT` and
`RTSP_STREAM_EXTERNAL`. -/
inductive RtspStream
  | direct
  | internal
  | external
  deriving DecidableEq, Repr

/-- A vendor camera device, abstracted to the two RTSP URL resolvers
`camera.py` awaits: `get_direct_rtsp_url(hd)` (may yield nothing) and
`get_rtsp_url(internal, hd)`. -/
structure CameraDevice where
  get_direct_rtsp_url : Bool → Option String
  get_rtsp_url : Bool → Bool → String

/-- The adapter's state (camera.py lines 85-88): configured quality and
stream mode, the cached stream source, and the last captured image. -/
structure CamState where
  hd_stream : Bool
  rtsp_stream : RtspStream
  stream_source_cache : Option String
  last_image : Option String

/-- Python truthiness of `self.__stream_source`: `None` and `""` are
falsy. -/
def cacheFalsy : Option String → Bool
  | none => true
  | some u => u == ""

/-- The resolution expression of `stream_source` (camera.py lines 103-109):
Python `x or y` where `x` is the direct URL when the mode is direct (else
`None`); a falsy `x` (absent or empty) falls through to
`get_rtsp_url(internal=(rtsp_stream != RTSP_STREAM_EXTERNAL), hd)`. -/
def resolveStream (d : CameraDevice) (s : CamState) : String :=
  let left : Option String :=
    if s.rtsp_stream = .direct then d.get_direct_rtsp_url s.hd_stream
    else none
  match left with
  | some u =>
      if u = "" then
        d.get_rtsp_url (decide (s.rtsp_stream ≠ .external)) s.hd_stream
      else u
  | none => d.get_rtsp_url (decide (s.rtsp_stream ≠ .external)) s.hd_stream

/-- `stream_source` (camera.py lines 100-110): `if not
self.__stream_source:` resolve and cache; return the cache. The `Nat`
counts resolver invocations made by this call. -/
def stream_source (d : CameraDevice) (s : CamState) :
    CamState × String × Nat :=
  if cacheFalsy s.stream_source_cache then
    let u := resolveStream d s
    ({ s with stream_source_cache := some u }, u, 1)
  else
    (s, s.stream_source_cache.getD "", 0)

/-- `async_camera_image` (camera.py lines 112-121): `try` to capture a
frame against the resolved stream source and cache it; the bare `except`
swallows every failure (including a failure raised by `stream_source`
itself, awaited inside the `try`); `finally: return self.__last_image`.
The parameter is the capture outcome; the function is total — it never
raises. -/
def async_camera_image (fetch : Except String String) (s : CamState) :
    CamState × Option String :=
  match fetch with
  | .ok img => ({ s with last_image := some img }, some img)
  | .error _ => (s, s.last_image)

end VivintCam

/-! ## Setup entry and the device-added subscription (`binary_sensor.py`) -/

/-- `binary_sensor.async_setup_entry` (lines 35-90): build the initial
entity list from the traversal; when it is empty, `return` early — before
the dispatcher subscription is registered; otherwise add the entities and
register `async_add_sensor` on the device-added signal. Returns the entity
list and whether the subscription was registered. -/
def async_setup_entry (account : Account) : List EntityKind × Bool :=
  let entities := setupEntities account
  if entities.isEmpty then (entities, false)
  else (entities, true)

/-- `async_add_sensor` (binary_sensor.py lines 75-82): the device-added
callback creates an entity only for wireless sensors. -/
def async_add_sensor (d : Device) : List EntityKind :=
  if d.isWirelessSensor then [.binarySensor] else []

/-- Entities created for a device discovered after setup: the dispatcher
delivers the device-added event to `async_add_sensor` only when the
subscription was registered for this config entry. -/
def laterDeviceEntities (registered : Bool) (d : Device) : List EntityKind :=
  if registered then async_add_sensor d else []

/-! ## Theorems -/

namespace MotionTimer

/-- Cancelling preserves the timer invariant. -/
theorem inv_cancel {s : TimerSysState} (hs : Inv s) :
    Inv (cancel_motion_stopped s) := by
  rcases hs with ⟨h1, h2⟩ | ⟨h, h1, h2, _⟩
  · exact Or.inl (by constructor <;> simp [cancel_motion_stopped, h1, h2])
  · exact Or.inl (by constructor <;> simp [cancel_motion_stopped, h1, h2])

/-- A motion event preserves the timer invariant. -/
theorem inv_motion {s : TimerSysState} (hs : Inv s) (now : ℚ) :
    Inv (motion_handler now s) := by
  rcases hs with ⟨h1, h2⟩ | ⟨h, h1, h2, _⟩ <;>
    exact Or.inr ⟨(cancel_motion_stopped s).nextId,
      by constructor <;> [skip; constructor] <;>
        simp [motion_handler, cancel_motion_stopped, h1, h2]⟩

/-- A timer firing preserves the timer invariant. -/
theorem inv_fire {s : TimerSysState} (hs : Inv s) (h : Nat) :
    Inv (fire_motion_stopped h s) := by
  rcases hs with ⟨h1, h2⟩ | ⟨k, h1, h2, h3⟩
  · simp only [fire_motion_stopped, h2]
    rw [if_neg (by simp)]
    exact Or.inl ⟨h1, h2⟩
  · by_cases hm : h ∈ s.pending
    · have hk : h = k := by
        rw [h2] at hm
        simpa using hm
      subst hk
      exact Or.inl (by constructor <;> simp [fire_motion_stopped, hm, h2])
    · simp only [fire_motion_stopped]
      rw [if_neg hm]
      exact Or.inr ⟨k, h1, h2, h3⟩

/-- Every event preserves the timer invariant. -/
theorem inv_step {s : TimerSysState} (hs : Inv s) (e : MotionEvent) :
    Inv (step s e) := by
  cases e with
  | motion now => exact inv_motion hs now
  | fire h => exact inv_fire hs h
  | teardown => exact inv_cancel hs

/-- Every reachable state satisfies the timer invariant. -/
theorem inv_run (evs : List MotionEvent) : Inv (run evs) := by
  have key : ∀ s, Inv s → Inv (evs.foldl step s) := by
    induction evs with
    | nil => exact fun _ hs => hs
    | cons e rest ih => exact fun s hs => ih _ (inv_step hs e)
  exact key timerInit (Or.inl ⟨rfl, rfl⟩)

end MotionTimer

/-- C1: the camera motion adapter's `is_on` is true iff a recorded
last-motion timestamp exists and is within 30 seconds of the current time
(`now - 30 ≤ m`, the source's `>= utcnow() - timedelta(seconds=30)`); and,
for the run with one motion event at t = 0 and no further events, `is_on`
reads true at every t in [0, 30) and false at every t ≥ 30 (at t ≥ 30 the
scheduled `async_motion_stopped_callback` has fired, clearing the
timestamp). -/
theorem camera_motion_is_on :
    (∀ (s : VivintCameraBinarySensorEntity.CamMotionState) (now : ℚ),
      VivintCameraBinarySensorEntity.is_on s now = true ↔
        ∃ m, s.last_motion_event = some m ∧ now - 30 ≤ m)
    ∧ (∀ t : ℚ, 0 ≤ t → t < 30 →
        VivintCameraBinarySensorEntity.singleMotionIsOn t = true)
    ∧ (∀ t : ℚ, 30 ≤ t →
        VivintCameraBinarySensorEntity.singleMotionIsOn t = false) := by
  refine ⟨fun s now => ?_, fun t h0 ht => ?_, fun t ht => ?_⟩
  · cases hm : s.last_motion_event with
    | none => simp [VivintCameraBinarySensorEntity.is_on, hm]
    | some m => simp [VivintCameraBinarySensorEntity.is_on, hm]
  · have hne : ¬ ((30 : ℚ) ≤ t) := by linarith
    simp [VivintCameraBinarySensorEntity.singleMotionIsOn,
      VivintCameraBinarySensorEntity.motion_callback,
      VivintCameraBinarySensorEntity.initState,
      VivintCameraBinarySensorEntity.fireIfDue,
      VivintCameraBinarySensorEntity.is_on, MOTION_STOPPED_SECONDS, hne]
    linarith
  · have hle : (30 : ℚ) ≤ t := ht
    simp [VivintCameraBinarySensorEntity.singleMotionIsOn,
      VivintCameraBinarySensorEntity.motion_callback,
      VivintCameraBinarySensorEntity.initState,
      VivintCameraBinarySensorEntity.fireIfDue,
      VivintCameraBinarySensorEntity.is_on, MOTION_STOPPED_SECONDS, hle]

/-- Witness for C1: fifteen seconds after the motion event the sensor reads
on; at thirty seconds it reads off. -/
theorem camera_motion_is_on_witness :
    VivintCameraBinarySensorEntity.singleMotionIsOn 15 = true
    ∧ VivintCameraBinarySensorEntity.singleMotionIsOn 30 = false :=
  ⟨camera_motion_is_on.2.1 15 (by norm_num) (by norm_num),
   camera_motion_is_on.2.2 30 (by norm_num)⟩

/-- C2: along every event sequence delivered to a camera motion adapter, at
most one pending cool-down timer exists; a motion event always yields
exactly one pending timer; when a timer was pending, a motion event cancels
it (it is no longer pending afterwards) and schedules exactly one fresh
timer, so two motion events within 30 seconds give one cancel-plus-
reschedule and never two overlapping timers; and cancelling with no handle
held is a no-op. -/
theorem motion_timer_single_pending :
    (∀ evs : List MotionTimer.MotionEvent,
      (MotionTimer.run evs).pending.length ≤ 1)
    ∧ (∀ (evs : List MotionTimer.MotionEvent) (now : ℚ),
        (MotionTimer.motion_handler now (MotionTimer.run evs)).pending.length
          = 1)
    ∧ (∀ (evs : List MotionTimer.MotionEvent) (now : ℚ) (h : Nat),
        (MotionTimer.run evs).motion_stopped_callback = some h →
          (MotionTimer.motion_handler now (MotionTimer.run evs)).pending
            = [(MotionTimer.run evs).nextId]
          ∧ h ∉
            (MotionTimer.motion_handler now (MotionTimer.run evs)).pending)
    ∧ (∀ evs : List MotionTimer.MotionEvent,
        (MotionTimer.run evs).motion_stopped_callback = none →
          MotionTimer.cancel_motion_stopped (MotionTimer.run evs)
            = MotionTimer.run evs) := by
  refine ⟨fun evs => ?_, fun evs now => ?_, fun evs now h hh => ?_,
    fun evs hn => ?_⟩
  · rcases MotionTimer.inv_run evs with ⟨_, h2⟩ | ⟨k, _, h2, _⟩ <;>
      simp [h2]
  · rcases MotionTimer.inv_run evs with ⟨h1, h2⟩ | ⟨k, h1, h2, _⟩ <;>
      simp [MotionTimer.motion_handler, MotionTimer.cancel_motion_stopped,
        h1, h2]
  · rcases MotionTimer.inv_run evs with ⟨h1, _⟩ | ⟨k, h1, h2, h3⟩
    · rw [h1] at hh
      exact absurd hh (by simp)
    · have hk : k = h := by
        rw [h1] at hh
        exact Option.some_injective _ hh
      subst hk
      constructor <;>
        simp [MotionTimer.motion_handler, MotionTimer.cancel_motion_stopped,
          h1, h2, Nat.ne_of_lt h3]
  · simp [MotionTimer.cancel_motion_stopped, hn]

/-- Witness for C2: after one motion event at t = 0 the handle names timer
0; a second motion event at t = 5 leaves exactly the fresh timer 1 pending,
with timer 0 cancelled; and on the empty run cancelling is a no-op. -/
theorem motion_timer_single_pending_witness :
    ((MotionTimer.motion_handler 5 (MotionTimer.run [.motion 0])).pending
        = [1]
      ∧ 0 ∉
        (MotionTimer.motion_handler 5 (MotionTimer.run [.motion 0])).pending)
    ∧ MotionTimer.cancel_motion_stopped (MotionTimer.run [])
        = MotionTimer.run [] :=
  ⟨motion_timer_single_pending.2.2.1 [.motion 0] 5 0 rfl,
   motion_timer_single_pending.2.2.2 [] rfl⟩

/-- C3: every device in the systems → panels → devices traversal is assigned
at most one entity-adapter kind, by first-match precedence (wireless sensor →
generic binary sensor; else camera → motion; else `node_online` →
connectivity on `node_online`; else `is_online` → connectivity on
`is_online`; else none): `classifyDevice` (from the source) coincides with
the spec-worded `classifySpec`, and a device list contributes at most one
entity per device. The assignment is deterministic across repeated runs
because classification is the pure function `classifyDevice`, evaluated
identically on each run over the same device list. -/
theorem classification_precedence :
    (∀ d : Device, classifyDevice d = classifySpec d)
    ∧ (∀ l : List Device, (l.filterMap classifyDevice).length ≤ l.length)
    ∧ (∀ a : Account, setupEntities a = setupEntities a) :=
  ⟨fun _ => rfl, fun l => l.length_filterMap_le classifyDevice, fun _ => rfl⟩

/-- C4: a wireless sensor with equipment type `CONTACT` and sensor type
`EXIT_ENTRY_1` derives device class `GARAGE_DOOR` when the equipment code
name contains `"TILT"` and `DOOR` otherwise. -/
theorem contact_exit_entry_class (d : Device)
    (he : d.equipment_type = .CONTACT)
    (hs : d.sensor_type = .EXIT_ENTRY_1) :
    VivintBinarySensorEntity.device_class d =
      some (if strHasSub d.equipment_code_name "TILT"
        then .GARAGE_DOOR else .DOOR) := by
  simp [VivintBinarySensorEntity.device_class, he, hs]

/-- Witness for C4: a tilt sensor yields `GARAGE_DOOR`, a recessed door
sensor yields `DOOR`. -/
theorem contact_exit_entry_class_witness :
    VivintBinarySensorEntity.device_class
        ⟨false, false, false, false, .CONTACT, .EXIT_ENTRY_1, "DW20_TILT"⟩ =
      some .GARAGE_DOOR
    ∧ VivintBinarySensorEntity.device_class
        ⟨false, false, false, false, .CONTACT, .EXIT_ENTRY_1, "DW10_RECESSED"⟩ =
      some .DOOR :=
  ⟨(contact_exit_entry_class _ rfl rfl).trans (by decide),
   (contact_exit_entry_class _ rfl rfl).trans (by decide)⟩

/-- C5: with equipment type `CONTACT` but a sensor type matching none of the
listed sub-cases, `device_class` returns no class (no `SAFETY` fallback, no
exception — the embedding is a total function into `Option`); with any
equipment type other than `MOTION`, `FREEZE`, `WATER`, `TEMPERATURE` and
`CONTACT`, it returns the `SAFETY` fallback. -/
theorem contact_fallthrough_and_fallback :
    (∀ d : Device, d.equipment_type = .CONTACT →
      d.sensor_type ≠ .EXIT_ENTRY_1 →
      d.sensor_type ≠ .PERIMETER →
      d.sensor_type ≠ .FIRE →
      d.sensor_type ≠ .FIRE_WITH_VERIFICATION →
      d.sensor_type ≠ .CARBON_MONOXIDE →
      VivintBinarySensorEntity.device_class d = none)
    ∧ (∀ d : Device, d.equipment_type ≠ .MOTION →
      d.equipment_type ≠ .FREEZE →
      d.equipment_type ≠ .WATER →
      d.equipment_type ≠ .TEMPERATURE →
      d.equipment_type ≠ .CONTACT →
      VivintBinarySensorEntity.device_class d = some .SAFETY) := by
  constructor
  · intro d he h1 h2 h3 h4 h5
    simp [VivintBinarySensorEntity.device_class, he, h1, h2, h3, h4, h5]
  · intro d h1 h2 h3 h4 h5
    simp [VivintBinarySensorEntity.device_class, h1, h2, h3, h4, h5]

/-- Witness for C5: a contact sensor with an unlisted sensor type gets no
class; an emergency pendant falls back to `SAFETY`. -/
theorem contact_fallthrough_and_fallback_witness :
    VivintBinarySensorEntity.device_class
        ⟨false, false, false, false, .CONTACT, .SILENT_BURGLARY, ""⟩ = none
    ∧ VivintBinarySensorEntity.device_class
        ⟨false, false, false, false, .EMERGENCY, .PERIMETER, ""⟩ =
      some .SAFETY :=
  ⟨contact_fallthrough_and_fallback.1 _ rfl (by decide) (by decide)
      (by decide) (by decide) (by decide),
   contact_fallthrough_and_fallback.2 _ (by decide) (by decide) (by decide)
      (by decide) (by decide)⟩

/-- C6: `login` fails with the MFA-required error when a second factor is
required, with the authentication error on bad credentials, and with the
connectivity error on each of the three network/API failures; on the
success path it persists the cookie jar, marks the session logged-in, and
returns the success flag. -/
theorem login_outcomes :
    (∀ s : VivintHub.HubState,
      (VivintHub.login .mfaRequired s).2 = .error .mfaRequired)
    ∧ (∀ s : VivintHub.HubState,
      (VivintHub.login .authFailure s).2 = .error .authentication)
    ∧ (∀ s : VivintHub.HubState,
      (VivintHub.login .apiFailure s).2 = .error .connectivity
      ∧ (VivintHub.login .responseFailure s).2 = .error .connectivity
      ∧ (VivintHub.login .connectFailure s).2 = .error .connectivity)
    ∧ (∀ s : VivintHub.HubState,
      (VivintHub.login .success s).1.cookie_saved = true
      ∧ (VivintHub.login .success s).1.logged_in = true
      ∧ (VivintHub.login .success s).2 = .ok true) :=
  ⟨fun _ => rfl, fun _ => rfl, fun _ => ⟨rfl, rfl, rfl⟩,
   fun _ => ⟨rfl, rfl, rfl⟩⟩

namespace VivintHub

/-- One `disconnect(remove_cache=False)` call never raises: it yields the
state with the connection and session closed, the listener invoked once
when it was registered (and never otherwise), and the reference cleared. -/
theorem disconnect_false_ok (s : DiscState) :
    disconnect false s = .ok
      { account_connected := false,
        session_closed := true,
        cache_file_present := s.cache_file_present,
        undo_listener := false,
        listener_calls :=
          s.listener_calls + (if s.undo_listener then 1 else 0) } := by
  rcases s with ⟨ac, sc, cp, ul, lc⟩
  cases ac <;> cases sc <;> cases ul <;>
    simp [disconnect, account_disconnect, session_close, bind, Except.bind,
      pure, Except.pure]

/-- Iterating `disconnect(remove_cache=False)` from a state whose listener
reference is already cleared never raises and never invokes the listener
again. -/
theorem disconnectIter_cleared (n : Nat) :
    ∀ s : DiscState, s.undo_listener = false →
      ∃ s' : DiscState, disconnectIter n s = .ok s'
        ∧ s'.listener_calls = s.listener_calls
        ∧ s'.undo_listener = false := by
  induction n with
  | zero => exact fun s hs => ⟨s, rfl, rfl, hs⟩
  | succ m ih =>
      intro s hs
      obtain ⟨s', hrun, hcalls, hul⟩ := ih
        { account_connected := false, session_closed := true,
          cache_file_present := s.cache_file_present,
          undo_listener := false,
          listener_calls :=
            s.listener_calls + (if s.undo_listener then 1 else 0) } rfl
      refine ⟨s', ?_, ?_, hul⟩
      · show (disconnect false s).bind (disconnectIter m) = .ok s'
        rw [disconnect_false_ok s]
        simpa [Except.bind] using hrun
      · simp [hcalls, hs]

end VivintHub

/-- C7: `disconnect` is idempotent — any number of
`disconnect(remove_cache=False)` calls never raises (each call closes the
connection and the session only behind their open-state guards, so the
close operations, which would raise on a closed handle, are never misused);
and across all calls the registered teardown listener is invoked at most
once, its reference being cleared by the first invocation. -/
theorem disconnect_idempotent :
    (∀ s : VivintHub.DiscState,
      VivintHub.disconnect false s = .ok
        { account_connected := false,
          session_closed := true,
          cache_file_present := s.cache_file_present,
          undo_listener := false,
          listener_calls :=
            s.listener_calls + (if s.undo_listener then 1 else 0) })
    ∧ (∀ (n : Nat) (s : VivintHub.DiscState), ∃ s' : VivintHub.DiscState,
        VivintHub.disconnectIter n s = .ok s')
    ∧ (∀ (n : Nat) (s s' : VivintHub.DiscState), s.listener_calls = 0 →
        VivintHub.disconnectIter n s = .ok s' → s'.listener_calls ≤ 1) := by
  refine ⟨VivintHub.disconnect_false_ok, fun n s => ?_, fun n s s' h0 hr => ?_⟩
  · cases n with
    | zero => exact ⟨s, rfl⟩
    | succ m =>
        obtain ⟨t, ht, -, -⟩ :=
          VivintHub.disconnectIter_cleared m
            { account_connected := false,
              session_closed := true,
              cache_file_present := s.cache_file_present,
              undo_listener := false,
              listener_calls :=
                s.listener_calls + (if s.undo_listener then 1 else 0) } rfl
        refine ⟨t, ?_⟩
        show (VivintHub.disconnect false s).bind (VivintHub.disconnectIter m)
          = .ok t
        rw [VivintHub.disconnect_false_ok s]
        simpa [Except.bind] using ht
  · cases n with
    | zero =>
        cases hr
        omega
    | succ m =>
        obtain ⟨t, ht, hcalls, -⟩ :=
          VivintHub.disconnectIter_cleared m
            { account_connected := false,
              session_closed := true,
              cache_file_present := s.cache_file_present,
              undo_listener := false,
              listener_calls :=
                s.listener_calls + (if s.undo_listener then 1 else 0) } rfl
        have hrun : VivintHub.disconnectIter (m + 1) s = .ok t := by
          show (VivintHub.disconnect false s).bind (VivintHub.disconnectIter m)
            = .ok t
          rw [VivintHub.disconnect_false_ok s]
          simpa [Except.bind] using ht
        rw [hrun] at hr
        cases hr
        by_cases hu : s.undo_listener <;> simp [hcalls, h0, hu]

/-- Witness for C7: starting connected, session open, listener registered
and never yet invoked, three successive disconnects succeed with exactly
one listener invocation. -/
theorem disconnect_idempotent_witness :
    VivintHub.disconnectIter 3 ⟨true, false, true, true, 0⟩
      = .ok ⟨false, true, true, false, 1⟩
    ∧ (⟨false, true, true, false, 1⟩ : VivintHub.DiscState).listener_calls
      ≤ 1 :=
  ⟨rfl, disconnect_idempotent.2.2 3 ⟨true, false, true, true, 0⟩
    ⟨false, true, true, false, 1⟩ rfl rfl⟩

/-- C8: with `rtsp_stream = direct` and a direct RTSP URL available for the
configured quality, the first `stream_source` call resolves to that direct
URL; with `rtsp_stream = external` it resolves to the non-internal relay
URL (`internal=False`); and the resolved value is cached — whenever a call
returns a non-empty string, the next call returns the identical string with
zero resolver invocations. -/
theorem stream_source_resolution :
    (∀ (d : VivintCam.CameraDevice) (s : VivintCam.CamState) (u : String),
      s.stream_source_cache = none →
      s.rtsp_stream = .direct →
      d.get_direct_rtsp_url s.hd_stream = some u → u ≠ "" →
        (VivintCam.stream_source d s).2.1 = u
        ∧ (VivintCam.stream_source d s).1.stream_source_cache = some u)
    ∧ (∀ (d : VivintCam.CameraDevice) (s : VivintCam.CamState),
      s.stream_source_cache = none →
      s.rtsp_stream = .external →
        (VivintCam.stream_source d s).2.1
          = d.get_rtsp_url false s.hd_stream)
    ∧ (∀ (d : VivintCam.CameraDevice) (s : VivintCam.CamState),
      (VivintCam.stream_source d s).2.1 ≠ "" →
        (VivintCam.stream_source d (VivintCam.stream_source d s).1).2.1
          = (VivintCam.stream_source d s).2.1
        ∧ (VivintCam.stream_source d (VivintCam.stream_source d s).1).2.2
          = 0) := by
  refine ⟨fun d s u hc hm hd hu => ?_, fun d s hc hm => ?_, fun d s hr => ?_⟩
  · constructor <;>
      simp [VivintCam.stream_source, VivintCam.cacheFalsy,
        VivintCam.resolveStream, hc, hm, hd, hu]
  · simp [VivintCam.stream_source, VivintCam.cacheFalsy,
      VivintCam.resolveStream, hc, hm]
  · rcases hcase : s.stream_source_cache with - | v
    · have hres : (VivintCam.stream_source d s).2.1
          = VivintCam.resolveStream d s := by
        simp [VivintCam.stream_source, VivintCam.cacheFalsy, hcase]
      rw [hres] at hr
      constructor <;>
        simp [VivintCam.stream_source, VivintCam.cacheFalsy, hcase, hr]
    · by_cases hv : v = ""
      · subst hv
        have hres : (VivintCam.stream_source d s).2.1
            = VivintCam.resolveStream d s := by
          simp [VivintCam.stream_source, VivintCam.cacheFalsy, hcase]
        rw [hres] at hr
        constructor <;>
          simp [VivintCam.stream_source, VivintCam.cacheFalsy, hcase, hr]
      · have hres : (VivintCam.stream_source d s).2.1 = v := by
          simp [VivintCam.stream_source, VivintCam.cacheFalsy, hcase, hv]
        constructor <;>
          simp [VivintCam.stream_source, VivintCam.cacheFalsy, hcase, hv,
            hres]

/-- Witness for C8: a camera offering a direct HD URL resolves to it in
direct mode and caches it; in external mode the same camera resolves to the
external relay URL; and the second call after a direct-mode resolution
returns the identical string without re-resolving. -/
theorem stream_source_resolution_witness :
    ((VivintCam.stream_source
        ⟨fun _ => some "rtsp://direct-hd", fun i _ =>
          if i then "rtsp://internal" else "rtsp://external"⟩
        ⟨true, .direct, none, none⟩).2.1 = "rtsp://direct-hd"
      ∧ (VivintCam.stream_source
        ⟨fun _ => some "rtsp://direct-hd", fun i _ =>
          if i then "rtsp://internal" else "rtsp://external"⟩
        ⟨true, .direct, none, none⟩).1.stream_source_cache
        = some "rtsp://direct-hd")
    ∧ (VivintCam.stream_source
        ⟨fun _ => some "rtsp://direct-hd", fun i _ =>
          if i then "rtsp://internal" else "rtsp://external"⟩
        ⟨true, .external, none, none⟩).2.1 = "rtsp://external"
    ∧ ((VivintCam.stream_source
        ⟨fun _ => some "rtsp://direct-hd", fun i _ =>
          if i then "rtsp://internal" else "rtsp://external"⟩
        (VivintCam.stream_source
          ⟨fun _ => some "rtsp://direct-hd", fun i _ =>
            if i then "rtsp://internal" else "rtsp://external"⟩
          ⟨true, .direct, none, none⟩).1).2.1
        = (VivintCam.stream_source
          ⟨fun _ => some "rtsp://direct-hd", fun i _ =>
            if i then "rtsp://internal" else "rtsp://external"⟩
          ⟨true, .direct, none, none⟩).2.1
      ∧ (VivintCam.stream_source
        ⟨fun _ => some "rtsp://direct-hd", fun i _ =>
          if i then "rtsp://internal" else "rtsp://external"⟩
        (VivintCam.stream_source
          ⟨fun _ => some "rtsp://direct-hd", fun i _ =>
            if i then "rtsp://internal" else "rtsp://external"⟩
          ⟨true, .direct, none, none⟩).1).2.2 = 0) :=
  ⟨stream_source_resolution.1 _ _ "rtsp://direct-hd" rfl rfl rfl
      (by decide),
   (stream_source_resolution.2.1 _ _ rfl rfl).trans rfl,
   stream_source_resolution.2.2 _ _ (by decide)⟩

/-- C9: `async_camera_image` never raises: on any failure of the capture
helper (or of stream resolution inside it) it returns the previously cached
image unchanged — `none` when no image was ever captured; on success it
caches and returns the fresh image. -/
theorem camera_image_best_effort :
    (∀ (e : String) (s : VivintCam.CamState),
      VivintCam.async_camera_image (.error e) s = (s, s.last_image))
    ∧ (∀ (img : String) (s : VivintCam.CamState),
      VivintCam.async_camera_image (.ok img) s
        = ({ s with last_image := some img }, some img)) :=
  ⟨fun _ _ => rfl, fun _ _ => rfl⟩

/-- C10: when the initial classification yields no entity,
`async_setup_entry` returns before registering the device-added dispatcher
subscription, so no entity is ever created for a later-discovered device of
that config entry — not even a wireless sensor. -/
theorem empty_setup_skips_subscription :
    ∀ a : Account, setupEntities a = [] →
      (async_setup_entry a).2 = false
      ∧ ∀ d : Device, laterDeviceEntities (async_setup_entry a).2 d = [] := by
  intro a h
  refine ⟨?_, fun d => ?_⟩
  · simp [async_setup_entry, h]
  · simp [laterDeviceEntities, async_setup_entry, h]

/-- Witness for C10: a panel holding only an unclassifiable device produces
no entities, the subscription is skipped, and a wireless sensor discovered
later contributes no entity. -/
theorem empty_setup_skips_subscription_witness :
    (async_setup_entry
        ⟨[⟨[⟨[⟨false, false, false, false, .UNKNOWN, .PERIMETER, ""⟩]⟩]⟩]⟩).2
      = false
    ∧ laterDeviceEntities
        (async_setup_entry
          ⟨[⟨[⟨[⟨false, false, false, false, .UNKNOWN, .PERIMETER,
            ""⟩]⟩]⟩]⟩).2
        ⟨true, false, false, false, .MOTION, .PERIMETER, ""⟩ = [] :=
  ⟨(empty_setup_skips_subscription
      ⟨[⟨[⟨[⟨false, false, false, false, .UNKNOWN, .PERIMETER, ""⟩]⟩]⟩]⟩
      rfl).1,
   (empty_setup_skips_subscription
      ⟨[⟨[⟨[⟨false, false, false, false, .UNKNOWN, .PERIMETER, ""⟩]⟩]⟩]⟩
      rfl).2
     ⟨true, false, false, false, .MOTION, .PERIMETER, ""⟩⟩

end Vivint
